import Mathlib

/-!
Shallow embedding of `src/src/main.cpp` (Arduino MKR1010 Azure IoT Hub device).

Bytes are modelled as `Nat`; byte strings as `List Nat`.  The fixed inbound
MQTT buffer `mqtt_buffer` (capacity `max_mqtt_buffer_len = 256`) is a
`List Nat` of length 256.  Topic strings keep their `String` form since they
are only built by concatenation and compared for equality.
-/

namespace Mk1010

/-- Capacity of the inbound buffer, `max_mqtt_buffer_len = 256` in `main.cpp`. -/
def max_mqtt_buffer_len : Nat := 256

/-- ASCII bytes of a string literal (the payloads in this development are ASCII). -/
def bytesOf (s : String) : List Nat := s.data.map Char.toNat

/-- C `strnlen`: number of bytes before the first zero byte, capped at `n`. -/
def strnlen (buf : List Nat) (n : Nat) : Nat :=
  ((buf.take n).takeWhile (fun b => b != 0)).length

/-- Bytes a C-string read of the buffer yields: everything before the first
zero byte.  (In C the scan is unbounded; within the model it is cut at the end
of the list, see `nullScanHighestIndex` for the out-of-bounds analysis.) -/
def cstr (buf : List Nat) : List Nat := buf.takeWhile (fun b => b != 0)

/-- Highest index the C-string terminator scan examines: it reads bytes
`0, 1, ...` until it reads a zero, so the last index read is the length of the
zero-free head of the buffer.  The scan stays inside the array iff this index
is strictly below the array length. -/
def nullScanHighestIndex (buf : List Nat) : Nat :=
  (buf.takeWhile (fun b => b != 0)).length

/-- Inbound command topic `"devices/" + deviceId + "/messages/devicebound/#"`. -/
def commandTopic (deviceId : String) : String :=
  "devices/" ++ deviceId ++ "/messages/devicebound/#"

/-- Outbound event topic `"devices/" + deviceId + "/messages/events/"`. -/
def eventTopic (deviceId : String) : String :=
  "devices/" ++ deviceId ++ "/messages/events/"

/-- Command bytes of `"Zone1"`. -/
def zone1Cmd : List Nat := bytesOf "Zone1"

/-- Command bytes of `"Zone2"`. -/
def zone2Cmd : List Nat := bytesOf "Zone2"

/-- Command bytes of `"Zone3"`. -/
def zone3Cmd : List Nat := bytesOf "Zone3"

/-- Command bytes of `"Zone4"`. -/
def zone4Cmd : List Nat := bytesOf "Zone4"

/-- Static table of known zone-selection commands and their zone selectors.
Modelled from the spec: `zone_lighting_controller.h` is not under `src/`; the
spec (sections 3, 4.3, 8 and the commented-out calls in `main.cpp`) gives the
vocabulary `Zone1..Zone4` with exact-match lookup. -/
def zoneTable : List (List Nat × Nat) :=
  [(zone1Cmd, 1), (zone2Cmd, 2), (zone3Cmd, 3), (zone4Cmd, 4)]

/-- Modelled from the spec: the Command Router lookup of
`ZoneLightingController` (its source `zone_lighting_controller.h` is not under
`src/`).  Exact-match lookup of the command text against the static table of
known zone-selection commands. -/
def route (cmd : List Nat) : Option Nat :=
  if cmd = zone1Cmd then some 1
  else if cmd = zone2Cmd then some 2
  else if cmd = zone3Cmd then some 3
  else if cmd = zone4Cmd then some 4
  else none

/-- Modelled from the spec: `ZoneLightingController.HighlightZone`
(`zone_lighting_controller.h` is not under `src/`).  On a vocabulary match it
performs exactly one Actuation Layer call with the resolved zone selector and
returns true; otherwise it performs no Actuation Layer call and returns false.
Result: (understood verdict, list of Actuation Layer calls made). -/
def HighlightZone (cmd : List Nat) : Bool × List Nat :=
  match route cmd with
  | some z => (true, [z])
  | none => (false, [])

/-- Observable events of one `onMessageReceived` invocation, in program order. -/
inductive HEvent
  | readBytes (n : Nat)
  | flush
  | routeCall (cmd : List Nat) (verdict : Bool)
  | publish (topic : String) (body : List Nat)
  | diagUnknown
  deriving DecidableEq, Repr

/-- Result of one `onMessageReceived` invocation: the inbound buffer afterwards
and the ordered trace of observable events. -/
structure HandlerResult where
  buffer : List Nat
  trace : List HEvent
  deriving DecidableEq, Repr

/-- Body of the reply publish in `onMessageReceived` (lines 131-136):
`"the command string <"`, the C-string print of `mqtt_buffer`, `"> was "`,
then the verdict text. -/
def replyBody (cmdPrinted : List Nat) (verdict : Bool) : List Nat :=
  bytesOf "the command string <" ++ cmdPrinted ++ bytesOf "> was " ++
    bytesOf (if verdict then "processed successfully" else "processed unsuccessfully")

/-- Embedding of `onMessageReceived` (`main.cpp` lines 101-144).
`payload` is the byte sequence the MQTT client has available
(`buffer_len = mqttClient.available()` is its length), `buf` the current
contents of `mqtt_buffer`.
  * `buffer_len == 0`: return, nothing read, nothing published;
  * `buffer_len > max_mqtt_buffer_len`: `mqttClient.flush()`, return;
  * otherwise `mqttClient.read` copies exactly `buffer_len` bytes into the
    front of the buffer (the rest keeps its old residual contents), the
    command string `std::string(mqtt_buffer, strnlen(mqtt_buffer, 256))` is
    routed through `HighlightZone`, one reply is published, and
    `HighlightZone` is invoked a second time on the same string, guarding the
    `did not equate to any known operation` diagnostic. -/
def onMessageReceived (deviceId : String) (payload : List Nat) (buf : List Nat) :
    HandlerResult :=
  let buffer_len := payload.length
  if buffer_len = 0 then
    { buffer := buf, trace := [] }
  else if max_mqtt_buffer_len < buffer_len then
    { buffer := buf, trace := [HEvent.flush] }
  else
    let newBuf := payload ++ buf.drop buffer_len
    let cmd := newBuf.take (strnlen newBuf max_mqtt_buffer_len)
    let v := (HighlightZone cmd).fst
    let v2 := (HighlightZone cmd).fst
    { buffer := newBuf
      trace := [HEvent.readBytes buffer_len, HEvent.routeCall cmd v,
                HEvent.publish (eventTopic deviceId) (replyBody (cstr newBuf) v),
                HEvent.routeCall cmd v2] ++
               (if v2 then [HEvent.diagUnknown] else []) }

/-- Publishes (topic, body) extracted from a handler trace, in order. -/
def publishedOf (r : HandlerResult) : List (String × List Nat) :=
  r.trace.filterMap (fun e =>
    match e with
    | HEvent.publish t b => some (t, b)
    | _ => none)

/-- Bodies of the publishes of a handler trace. -/
def publishedBodies (r : HandlerResult) : List (List Nat) :=
  (publishedOf r).map Prod.snd

/-- Command strings handed to `HighlightZone` during one handler run, in order. -/
def routedOf (r : HandlerResult) : List (List Nat) :=
  r.trace.filterMap (fun e =>
    match e with
    | HEvent.routeCall c _ => some c
    | _ => none)

/-- Router verdicts observed during one handler run, in order. -/
def verdictsOf (r : HandlerResult) : List Bool :=
  r.trace.filterMap (fun e =>
    match e with
    | HEvent.routeCall _ v => some v
    | _ => none)

/-- The all-zero buffer `mqtt_buffer` starts with (`char mqtt_buffer[256] = {0}`). -/
def zeroBuf : List Nat := List.replicate max_mqtt_buffer_len 0

set_option maxRecDepth 10000

lemma take_takeWhile_length (p : Nat → Bool) (l : List Nat) :
    l.take (l.takeWhile p).length = l.takeWhile p := by
  induction l with
  | nil => rfl
  | cons a l ih =>
    by_cases h : p a = true
    · simp [List.takeWhile_cons, h, ih]
    · simp [List.takeWhile_cons, h]

lemma routed_eq_cstr (l : List Nat) (h : l.length = max_mqtt_buffer_len) :
    l.take (strnlen l max_mqtt_buffer_len) = cstr l := by
  have htake : l.take max_mqtt_buffer_len = l := by
    rw [← h]; exact List.take_length l
  rw [strnlen, htake, cstr, take_takeWhile_length]

lemma newBuf_length (payload buf : List Nat) (hbuf : buf.length = max_mqtt_buffer_len)
    (h2 : payload.length ≤ max_mqtt_buffer_len) :
    (payload ++ buf.drop payload.length).length = max_mqtt_buffer_len := by
  simp [List.length_append, List.length_drop, hbuf]
  omega

lemma takeWhile_append_all (p : Nat → Bool) (l₁ l₂ : List Nat)
    (h : ∀ b ∈ l₁, p b = true) :
    (l₁ ++ l₂).takeWhile p = l₁ ++ l₂.takeWhile p := by
  induction l₁ with
  | nil => rfl
  | cons a l ih =>
    have ha : p a = true := h a (by simp)
    simp [List.takeWhile_cons, ha, ih (fun b hb => h b (by simp [hb]))]

lemma cstr_append_payload (payload buf : List Nat)
    (hz : ∀ b ∈ payload, b ≠ 0)
    (ht : (buf.drop payload.length).head?.getD 0 = 0) :
    cstr (payload ++ buf.drop payload.length) = payload := by
  rw [cstr, takeWhile_append_all _ _ _
      (fun b hb => by simpa using hz b hb)]
  cases hd : buf.drop payload.length with
  | nil => simp
  | cons a t =>
    have ha : a = 0 := by
      rw [hd] at ht
      simpa using ht
    subst ha
    simp [List.takeWhile_cons]

/-- Unfolded form of the handler on an accepted payload (0 < length ≤ capacity). -/
lemma onMessageReceived_accepted (deviceId : String) (payload buf : List Nat)
    (h1 : 0 < payload.length) (h2 : payload.length ≤ max_mqtt_buffer_len) :
    onMessageReceived deviceId payload buf =
      { buffer := payload ++ buf.drop payload.length
        trace :=
          [HEvent.readBytes payload.length,
           HEvent.routeCall
             ((payload ++ buf.drop payload.length).take
               (strnlen (payload ++ buf.drop payload.length) max_mqtt_buffer_len))
             (HighlightZone
               ((payload ++ buf.drop payload.length).take
                 (strnlen (payload ++ buf.drop payload.length) max_mqtt_buffer_len))).fst,
           HEvent.publish (eventTopic deviceId)
             (replyBody (cstr (payload ++ buf.drop payload.length))
               (HighlightZone
                 ((payload ++ buf.drop payload.length).take
                   (strnlen (payload ++ buf.drop payload.length) max_mqtt_buffer_len))).fst),
           HEvent.routeCall
             ((payload ++ buf.drop payload.length).take
               (strnlen (payload ++ buf.drop payload.length) max_mqtt_buffer_len))
             (HighlightZone
               ((payload ++ buf.drop payload.length).take
                 (strnlen (payload ++ buf.drop payload.length) max_mqtt_buffer_len))).fst] ++
          (if (HighlightZone
                ((payload ++ buf.drop payload.length).take
                  (strnlen (payload ++ buf.drop payload.length) max_mqtt_buffer_len))).fst
           then [HEvent.diagUnknown] else []) } := by
  have hne : ¬ payload.length = 0 := Nat.pos_iff_ne_zero.mp h1
  have hle : ¬ max_mqtt_buffer_len < payload.length := Nat.not_lt.mpr h2
  simp only [onMessageReceived, hne, hle, if_false, ite_false]

lemma publishedOf_accepted (deviceId : String) (payload buf : List Nat)
    (h1 : 0 < payload.length) (h2 : payload.length ≤ max_mqtt_buffer_len) :
    publishedOf (onMessageReceived deviceId payload buf) =
      [(eventTopic deviceId,
        replyBody (cstr (payload ++ buf.drop payload.length))
          (HighlightZone
            ((payload ++ buf.drop payload.length).take
              (strnlen (payload ++ buf.drop payload.length) max_mqtt_buffer_len))).fst)] := by
  rw [onMessageReceived_accepted _ _ _ h1 h2]
  by_cases hv : (HighlightZone
      ((payload ++ buf.drop payload.length).take
        (strnlen (payload ++ buf.drop payload.length) max_mqtt_buffer_len))).fst = true
  · simp [publishedOf, hv, List.filterMap]
  · have hv' : (HighlightZone
        ((payload ++ buf.drop payload.length).take
          (strnlen (payload ++ buf.drop payload.length) max_mqtt_buffer_len))).fst = false := by
      simpa using hv
    simp [publishedOf, hv', List.filterMap]

/-- C1.  For an inbound message with available payload length L (capacity 256):
L = 0 leaves the buffer unchanged and publishes nothing; 0 < L ≤ 256 copies
exactly L bytes into the front of the buffer (the rest unchanged) and publishes
exactly one reply; L > 256 copies nothing, flushes the channel, and publishes
nothing. -/
theorem claim_C1 (deviceId : String) (payload buf : List Nat) :
    (payload.length = 0 →
      (onMessageReceived deviceId payload buf).buffer = buf ∧
      publishedOf (onMessageReceived deviceId payload buf) = []) ∧
    (0 < payload.length → payload.length ≤ max_mqtt_buffer_len →
      (onMessageReceived deviceId payload buf).buffer.take payload.length = payload ∧
      (onMessageReceived deviceId payload buf).buffer.drop payload.length =
        buf.drop payload.length ∧
      (publishedOf (onMessageReceived deviceId payload buf)).length = 1) ∧
    (max_mqtt_buffer_len < payload.length →
      (onMessageReceived deviceId payload buf).buffer = buf ∧
      HEvent.flush ∈ (onMessageReceived deviceId payload buf).trace ∧
      publishedOf (onMessageReceived deviceId payload buf) = []) := by
  refine ⟨fun h0 => ?_, fun h1 h2 => ?_, fun h3 => ?_⟩
  · simp [onMessageReceived, h0, publishedOf]
  · refine ⟨?_, ?_, ?_⟩
    · rw [onMessageReceived_accepted _ _ _ h1 h2]
      exact List.take_left payload _
    · rw [onMessageReceived_accepted _ _ _ h1 h2]
      exact List.drop_left payload _
    · rw [publishedOf_accepted _ _ _ h1 h2]
      rfl
  · have hne : ¬ payload.length = 0 := by omega
    simp [onMessageReceived, hne, h3, publishedOf]

/-- Witness for C1: the 1-byte payload `[65]` into the fresh buffer is copied
and answered with exactly one reply. -/
theorem claim_C1_witness :
    (onMessageReceived "d" [65] zeroBuf).buffer.take [65].length = [65] ∧
    (onMessageReceived "d" [65] zeroBuf).buffer.drop [65].length =
      zeroBuf.drop [65].length ∧
    (publishedOf (onMessageReceived "d" [65] zeroBuf)).length = 1 :=
  (claim_C1 "d" [65] zeroBuf).2.1 (by decide) (by decide)

/-- C2.  Every command string in the known vocabulary routes to verdict true
with exactly one Actuation Layer call carrying the matching zone selector;
every other command string (including the empty one) routes to verdict false
with zero Actuation Layer calls.  (Router modelled from the spec:
`zone_lighting_controller.h` is not under `src/`.) -/
theorem claim_C2 :
    (∀ cmd z, (cmd, z) ∈ zoneTable → HighlightZone cmd = (true, [z])) ∧
    (∀ cmd, cmd ∉ zoneTable.map Prod.fst → HighlightZone cmd = (false, [])) := by
  constructor
  · intro cmd z h
    simp [zoneTable] at h
    rcases h with ⟨h1, h2⟩ | ⟨h1, h2⟩ | ⟨h1, h2⟩ | ⟨h1, h2⟩ <;> subst h1 <;> subst h2 <;> decide
  · intro cmd h
    simp [zoneTable] at h
    obtain ⟨n1, n2, n3, n4⟩ := h
    simp [HighlightZone, route, n1, n2, n3, n4]

/-- Witness for C2: `Zone1` is routed with one actuation call for selector 1;
`Zone9` and the empty string are rejected with no actuation call. -/
theorem claim_C2_witness :
    HighlightZone zone1Cmd = (true, [1]) ∧
    HighlightZone (bytesOf "Zone9") = (false, []) ∧
    HighlightZone [] = (false, []) :=
  ⟨claim_C2.1 zone1Cmd 1 (by decide),
   claim_C2.2 (bytesOf "Zone9") (by decide),
   claim_C2.2 [] (by decide)⟩

/-- C3.  Every processed inbound message (0 < length ≤ capacity) produces
exactly one publish, on topic `devices/{deviceId}/messages/events/`, whose body
is `the command string <` ++ the command text ++ `> was ` followed by
`processed successfully` when the router verdict on that command is true and
`processed unsuccessfully` when it is false (the command text being the
C-string view of the buffer that the handler routes and prints). -/
theorem claim_C3 (deviceId : String) (payload buf : List Nat)
    (hbuf : buf.length = max_mqtt_buffer_len)
    (h1 : 0 < payload.length) (h2 : payload.length ≤ max_mqtt_buffer_len) :
    publishedOf (onMessageReceived deviceId payload buf) =
      [(eventTopic deviceId,
        bytesOf "the command string <" ++ cstr (payload ++ buf.drop payload.length) ++
          bytesOf "> was " ++
          bytesOf (if (HighlightZone (cstr (payload ++ buf.drop payload.length))).fst
                   then "processed successfully" else "processed unsuccessfully"))] := by
  rw [publishedOf_accepted _ _ _ h1 h2,
    routed_eq_cstr _ (newBuf_length payload buf hbuf h2)]
  simp [replyBody]

/-- Witness for C3: payload `Zone1` into the fresh buffer yields exactly the
reply `the command string <Zone1> was processed successfully` on the event
topic. -/
theorem claim_C3_witness :
    publishedOf (onMessageReceived "d" (bytesOf "Zone1") zeroBuf) =
      [(eventTopic "d",
        bytesOf "the command string <" ++
          cstr (bytesOf "Zone1" ++ zeroBuf.drop (bytesOf "Zone1").length) ++
          bytesOf "> was " ++
          bytesOf (if (HighlightZone
              (cstr (bytesOf "Zone1" ++ zeroBuf.drop (bytesOf "Zone1").length))).fst
            then "processed successfully" else "processed unsuccessfully"))] :=
  claim_C3 "d" (bytesOf "Zone1") zeroBuf (by decide) (by decide) (by decide)

/-- Counterexample to C4 as stated.  Two runs deliver the same payload
`Zone1`: one into the fresh buffer, one into the buffer left by previously
processing `Zone1X`.  The two runs publish different reply bodies and observe
different router verdicts, so the reply and verdict are not a function of the
payload bytes alone, and the embedded command text is not the verbatim payload
(the second run embeds and routes `Zone1X`). -/
theorem claim_C4_counterexample :
    publishedBodies (onMessageReceived "d" (bytesOf "Zone1") zeroBuf) ≠
      publishedBodies (onMessageReceived "d" (bytesOf "Zone1")
        (onMessageReceived "d" (bytesOf "Zone1X") zeroBuf).buffer) ∧
    verdictsOf (onMessageReceived "d" (bytesOf "Zone1") zeroBuf) ≠
      verdictsOf (onMessageReceived "d" (bytesOf "Zone1")
        (onMessageReceived "d" (bytesOf "Zone1X") zeroBuf).buffer) := by
  decide

/-- C4 as amended.  The reply embeds the C-string view of the buffer after the
copy, which depends on residual buffer contents; when the payload contains no
zero byte and the first residual byte after it is zero, the embedded command
text is the verbatim payload and the reply and verdict are a function of the
payload alone. -/
theorem claim_C4 (deviceId : String) (payload buf : List Nat)
    (hbuf : buf.length = max_mqtt_buffer_len)
    (h1 : 0 < payload.length) (h2 : payload.length ≤ max_mqtt_buffer_len)
    (hz : ∀ b ∈ payload, b ≠ 0)
    (ht : (buf.drop payload.length).head?.getD 0 = 0) :
    publishedOf (onMessageReceived deviceId payload buf) =
      [(eventTopic deviceId, replyBody payload (HighlightZone payload).fst)] ∧
    verdictsOf (onMessageReceived deviceId payload buf) =
      [(HighlightZone payload).fst, (HighlightZone payload).fst] := by
  have hc : cstr (payload ++ buf.drop payload.length) = payload :=
    cstr_append_payload payload buf hz ht
  have hr : (payload ++ buf.drop payload.length).take
      (strnlen (payload ++ buf.drop payload.length) max_mqtt_buffer_len) = payload := by
    rw [routed_eq_cstr _ (newBuf_length payload buf hbuf h2), hc]
  constructor
  · rw [publishedOf_accepted _ _ _ h1 h2, hc, hr]
  · rw [onMessageReceived_accepted _ _ _ h1 h2]
    by_cases hv : (HighlightZone
        ((payload ++ buf.drop payload.length).take
          (strnlen (payload ++ buf.drop payload.length) max_mqtt_buffer_len))).fst = true
    · simp [verdictsOf, hv, List.filterMap, hr.symm ▸ hv]
      rw [hr] at hv
      simp [hv]
    · have hv' : (HighlightZone
          ((payload ++ buf.drop payload.length).take
            (strnlen (payload ++ buf.drop payload.length) max_mqtt_buffer_len))).fst = false := by
        simpa using hv
      simp [verdictsOf, hv', List.filterMap]
      rw [hr] at hv'
      simp [hv']

/-- Witness for the amended C4: payload `Zone1` into the fresh buffer (no zero
byte in the payload, residual byte after it is zero). -/
theorem claim_C4_witness :
    publishedOf (onMessageReceived "d" (bytesOf "Zone1") zeroBuf) =
      [(eventTopic "d",
        replyBody (bytesOf "Zone1") (HighlightZone (bytesOf "Zone1")).fst)] ∧
    verdictsOf (onMessageReceived "d" (bytesOf "Zone1") zeroBuf) =
      [(HighlightZone (bytesOf "Zone1")).fst, (HighlightZone (bytesOf "Zone1")).fst] :=
  claim_C4 "d" (bytesOf "Zone1") zeroBuf (by decide) (by decide) (by decide)
    (by decide) (by decide)

/-- Counterexample to C5 as stated.  The payload `[65, 0, 66]` (bytes
`A`, NUL, `B`) into the fresh buffer is routed as `[65]`: the
`strnlen`-based `std::string` construction truncates at the embedded zero
byte, so the routed string does not equal the payload bytes. -/
theorem claim_C5_counterexample :
    routedOf (onMessageReceived "d" [65, 0, 66] zeroBuf) = [[65], [65]] ∧
    ([65] : List Nat) ≠ [65, 0, 66] := by
  decide

/-- C5 as amended.  The command string handed to the router is the zero-free
head of the post-copy buffer, capped at capacity (`strnlen(mqtt_buffer, 256)`):
it is null-terminator-dependent — truncated at the first zero byte and
extended past the payload's logical length by residual bytes when the payload
lacks a zero terminator — but never longer than the capacity. -/
theorem claim_C5 (deviceId : String) (payload buf : List Nat)
    (hbuf : buf.length = max_mqtt_buffer_len)
    (h1 : 0 < payload.length) (h2 : payload.length ≤ max_mqtt_buffer_len) :
    routedOf (onMessageReceived deviceId payload buf) =
      [cstr (payload ++ buf.drop payload.length),
       cstr (payload ++ buf.drop payload.length)] ∧
    ∀ c ∈ routedOf (onMessageReceived deviceId payload buf),
      c.length ≤ max_mqtt_buffer_len := by
  have hr : (payload ++ buf.drop payload.length).take
      (strnlen (payload ++ buf.drop payload.length) max_mqtt_buffer_len) =
        cstr (payload ++ buf.drop payload.length) :=
    routed_eq_cstr _ (newBuf_length payload buf hbuf h2)
  have hroutes : routedOf (onMessageReceived deviceId payload buf) =
      [cstr (payload ++ buf.drop payload.length),
       cstr (payload ++ buf.drop payload.length)] := by
    rw [onMessageReceived_accepted _ _ _ h1 h2]
    by_cases hv : (HighlightZone
        ((payload ++ buf.drop payload.length).take
          (strnlen (payload ++ buf.drop payload.length) max_mqtt_buffer_len))).fst = true
    · simp [routedOf, hv, List.filterMap, hr]
    · have hv' : (HighlightZone
          ((payload ++ buf.drop payload.length).take
            (strnlen (payload ++ buf.drop payload.length) max_mqtt_buffer_len))).fst = false := by
        simpa using hv
      simp [routedOf, hv', List.filterMap, hr]
  refine ⟨hroutes, ?_⟩
  intro c hc
  rw [hroutes] at hc
  have hceq : c = cstr (payload ++ buf.drop payload.length) := by
    simpa using hc
  subst hceq
  calc (cstr (payload ++ buf.drop payload.length)).length
      ≤ (payload ++ buf.drop payload.length).length :=
        List.Sublist.length_le (List.takeWhile_sublist _)
    _ = max_mqtt_buffer_len := newBuf_length payload buf hbuf h2

/-- Witness for the amended C5: payload `[65, 0, 66]` into the fresh buffer is
routed (twice) as the zero-free head of the post-copy buffer, of length at most
the capacity. -/
theorem claim_C5_witness :
    routedOf (onMessageReceived "d" [65, 0, 66] zeroBuf) =
      [cstr ([65, 0, 66] ++ zeroBuf.drop [65, 0, 66].length),
       cstr ([65, 0, 66] ++ zeroBuf.drop [65, 0, 66].length)] ∧
    ∀ c ∈ routedOf (onMessageReceived "d" [65, 0, 66] zeroBuf),
      c.length ≤ max_mqtt_buffer_len :=
  claim_C5 "d" [65, 0, 66] zeroBuf (by decide) (by decide) (by decide)

/-- Observable connectivity actions of the driver loop (`loop`, `connectWiFi`,
`connectMQTT` in `main.cpp`). -/
inductive Action
  | wifiAttempt
  | mqttAttempt
  | delay
  | subscribe (topic : String)
  | poll
  deriving DecidableEq, Repr

/-- Embedding of `connectWiFi` (lines 55-69): each iteration of the while loop
is one `WiFi.begin` attempt; a failed attempt is followed by `delay(5000)`.
`outcomes` lists the attempt results; `none` models the loop not terminating
within the listed attempts (the code retries forever). -/
def connectWiFiActions : List Bool → Option (List Action)
  | [] => none
  | o :: rest =>
    if o then some [Action.wifiAttempt]
    else (connectWiFiActions rest).map (fun t => Action.wifiAttempt :: Action.delay :: t)

/-- Embedding of `connectMQTT` (lines 71-89): each while-loop iteration is one
`mqttClient.connect` attempt with `delay(5000)` on failure; after the first
successful attempt the function subscribes once to the inbound command topic
and returns. -/
def connectMQTTActions (deviceId : String) : List Bool → Option (List Action)
  | [] => none
  | o :: rest =>
    if o then some [Action.mqttAttempt, Action.subscribe (commandTopic deviceId)]
    else (connectMQTTActions deviceId rest).map
      (fun t => Action.mqttAttempt :: Action.delay :: t)

/-- Embedding of one iteration of `loop` (lines 194-219): `connectWiFi` runs
only when `WiFi.status() != WL_CONNECTED`, `connectMQTT` only when
`!mqttClient.connected()`, then `mqttClient.poll()`.  (The 5-second block at
the end performs no action: all its calls are commented out.) -/
def loopIter (deviceId : String) (wifiConnected mqttConnected : Bool)
    (wifiOutcomes mqttOutcomes : List Bool) : Option (List Action) :=
  match (if wifiConnected then some [] else connectWiFiActions wifiOutcomes),
        (if mqttConnected then some [] else connectMQTTActions deviceId mqttOutcomes) with
  | some t1, some t2 => some (t1 ++ t2 ++ [Action.poll])
  | _, _ => none

/-- Recognizer for subscribe actions. -/
def isSubscribeAction : Action → Bool
  | Action.subscribe _ => true
  | _ => false

/-- C6.  When the network layer and the messaging layer both report connected,
one iteration of the driver loop performs no connection attempt, no delay and
no subscribe: its action trace is exactly the poll step. -/
theorem claim_C6 (deviceId : String) (w m : Bool)
    (wifiOutcomes mqttOutcomes : List Bool) (hw : w = true) (hm : m = true) :
    loopIter deviceId w m wifiOutcomes mqttOutcomes = some [Action.poll] := by
  subst hw
  subst hm
  rfl

/-- Witness for C6 at a concrete fully connected state. -/
theorem claim_C6_witness :
    loopIter "d" true true [] [] = some [Action.poll] :=
  claim_C6 "d" true true [] [] rfl rfl

lemma connectWiFiActions_no_subscribe (wifiOutcomes : List Bool) (t : List Action)
    (h : connectWiFiActions wifiOutcomes = some t) :
    t.countP isSubscribeAction = 0 := by
  induction wifiOutcomes generalizing t with
  | nil => simp [connectWiFiActions] at h
  | cons o rest ih =>
    by_cases ho : o = true
    · simp [connectWiFiActions, ho] at h
      subst h
      simp [List.countP_cons, isSubscribeAction]
    · have ho' : o = false := by simpa using ho
      simp [connectWiFiActions, ho'] at h
      obtain ⟨t1, ht1, rfl⟩ := h
      simp [List.countP_cons, isSubscribeAction, ih t1 ht1]

/-- C7.  Every terminating run of `connectMQTT` contains exactly one subscribe
to the inbound command topic, placed immediately after the successful connect
attempt (at the very end of the run, with no subscribe before it); and a loop
iteration entered while the messaging layer is already connected (the session
that subscribed is still up) performs no subscribe at all. -/
theorem claim_C7 (deviceId : String) :
    (∀ mqttOutcomes tr, connectMQTTActions deviceId mqttOutcomes = some tr →
      tr.countP isSubscribeAction = 1 ∧
      ∃ pre, tr = pre ++ [Action.mqttAttempt, Action.subscribe (commandTopic deviceId)] ∧
        pre.countP isSubscribeAction = 0) ∧
    (∀ w wifiOutcomes mqttOutcomes tr,
      loopIter deviceId w true wifiOutcomes mqttOutcomes = some tr →
      tr.countP isSubscribeAction = 0) := by
  constructor
  · intro mqttOutcomes
    induction mqttOutcomes with
    | nil => intro tr h; simp [connectMQTTActions] at h
    | cons o rest ih =>
      intro tr h
      by_cases ho : o = true
      · simp [connectMQTTActions, ho] at h
        subst h
        exact ⟨by simp [List.countP_cons, isSubscribeAction], [], by simp, rfl⟩
      · have ho' : o = false := by simpa using ho
        simp [connectMQTTActions, ho'] at h
        obtain ⟨t1, ht1, rfl⟩ := h
        obtain ⟨hcount, pre, hpre, hprecount⟩ := ih t1 ht1
        refine ⟨by simp [List.countP_cons, isSubscribeAction, hcount],
          Action.mqttAttempt :: Action.delay :: pre, ?_, ?_⟩
        · simp [hpre]
        · simp [List.countP_cons, isSubscribeAction, hprecount]
  · intro w wifiOutcomes mqttOutcomes tr h
    by_cases hw : w = true
    · simp [loopIter, hw] at h
      subst h
      simp [List.countP_cons, isSubscribeAction]
    · have hw' : w = false := by simpa using hw
      rw [loopIter] at h
      simp only [hw', if_false, if_true, ite_true, ite_false] at h
      cases hcw : connectWiFiActions wifiOutcomes with
      | none => rw [hcw] at h; simp at h
      | some t1 =>
        rw [hcw] at h
        simp at h
        subst h
        simp [List.countP_append, List.countP_cons, isSubscribeAction,
          connectWiFiActions_no_subscribe wifiOutcomes t1 hcw]

/-- Witness for C7: the attempt sequence fail-then-succeed yields one trailing
subscribe, and a fully connected loop iteration performs none. -/
theorem claim_C7_witness :
    ([Action.mqttAttempt, Action.delay, Action.mqttAttempt,
        Action.subscribe (commandTopic "d")].countP isSubscribeAction = 1 ∧
      ∃ pre, [Action.mqttAttempt, Action.delay, Action.mqttAttempt,
          Action.subscribe (commandTopic "d")] =
            pre ++ [Action.mqttAttempt, Action.subscribe (commandTopic "d")] ∧
        pre.countP isSubscribeAction = 0) ∧
    [Action.poll].countP isSubscribeAction = 0 :=
  ⟨(claim_C7 "d").1 [false, true] _ rfl,
   (claim_C7 "d").2 true [] [] [Action.poll] rfl⟩

/-- Steps of `setup` (lines 146-192), in program order. -/
inductive SetupStep
  | initialDelay
  | serialBegin
  | lightingInit
  | eccCheck
  | certReconstruct
  | setTimeCallback
  | setEccSlot
  | setMqttId
  | setCredentials
  | registerOnMessage
  deriving DecidableEq, Repr

/-- Embedding of `setup`: when `ECCX08.begin()` fails the process enters
`while (1);` right after the check, so only the steps up to the check run;
otherwise setup continues through registering the message callback. -/
def setupTrace (eccPresent : Bool) : List SetupStep :=
  [SetupStep.initialDelay, SetupStep.serialBegin, SetupStep.lightingInit,
   SetupStep.eccCheck] ++
    (if eccPresent then
      [SetupStep.certReconstruct, SetupStep.setTimeCallback, SetupStep.setEccSlot,
       SetupStep.setMqttId, SetupStep.setCredentials, SetupStep.registerOnMessage]
     else [])

/-- `while (1);` — setup never returns when the ECCX08 element is absent. -/
def setupHalts (eccPresent : Bool) : Bool := !eccPresent

/-- Number of `loop` iterations the scheduler gets to run in `ticks` ticks:
none at all when setup halted. -/
def loopIterationsRun (eccPresent : Bool) (ticks : Nat) : Nat :=
  if setupHalts eccPresent then 0 else ticks

/-- C8.  With the ECCX08 identity element absent, setup halts permanently: the
check runs exactly once (no retry), nothing past the check executes (no
certificate reconstruction, no message-callback registration) and however many
scheduler ticks elapse, the driver loop (Session Manager and dispatch) never
runs. -/
theorem claim_C8 :
    setupHalts false = true ∧
    setupTrace false =
      [SetupStep.initialDelay, SetupStep.serialBegin, SetupStep.lightingInit,
       SetupStep.eccCheck] ∧
    (setupTrace false).count SetupStep.eccCheck = 1 ∧
    SetupStep.certReconstruct ∉ setupTrace false ∧
    SetupStep.registerOnMessage ∉ setupTrace false ∧
    ∀ ticks, loopIterationsRun false ticks = 0 :=
  ⟨rfl, rfl, by decide, by decide, by decide, fun _ => rfl⟩

/-- Evaluation for C9 at the failing input: the accepted payload of 256 bytes
`0x41` fills the buffer exactly with no zero byte, so the C-string terminator
scan used by `Serial.print(mqtt_buffer)` and `mqttClient.print(mqtt_buffer)`
examines index 256 — the buffer capacity itself, not an index strictly below
it — i.e. the scan runs one byte past the array. -/
theorem claim_C9 :
    (0 < (List.replicate 256 65 : List Nat).length ∧
      (List.replicate 256 65 : List Nat).length ≤ max_mqtt_buffer_len) ∧
    (onMessageReceived "d" (List.replicate 256 65) zeroBuf).buffer.length =
      max_mqtt_buffer_len ∧
    nullScanHighestIndex
        (onMessageReceived "d" (List.replicate 256 65) zeroBuf).buffer =
      max_mqtt_buffer_len ∧
    ¬ nullScanHighestIndex
        (onMessageReceived "d" (List.replicate 256 65) zeroBuf).buffer <
      max_mqtt_buffer_len := by
  decide

/-- Command string the handler constructs and routes: the `strnlen`-bounded
view of the post-copy buffer. -/
def routedCmd (payload buf : List Nat) : List Nat :=
  (payload ++ buf.drop payload.length).take
    (strnlen (payload ++ buf.drop payload.length) max_mqtt_buffer_len)

/-- C10.  On every processed message the handler, after publishing the reply,
invokes `HighlightZone` a second time with the same command string, and the
`did not equate to any known operation` diagnostic is emitted exactly when
that second call returns true (command recognized), never when it returns
false. -/
theorem claim_C10 (deviceId : String) (payload buf : List Nat)
    (h1 : 0 < payload.length) (h2 : payload.length ≤ max_mqtt_buffer_len) :
    (onMessageReceived deviceId payload buf).trace =
      [HEvent.readBytes payload.length,
       HEvent.routeCall (routedCmd payload buf)
         (HighlightZone (routedCmd payload buf)).fst,
       HEvent.publish (eventTopic deviceId)
         (replyBody (cstr (payload ++ buf.drop payload.length))
           (HighlightZone (routedCmd payload buf)).fst),
       HEvent.routeCall (routedCmd payload buf)
         (HighlightZone (routedCmd payload buf)).fst] ++
      (if (HighlightZone (routedCmd payload buf)).fst
       then [HEvent.diagUnknown] else []) ∧
    (HEvent.diagUnknown ∈ (onMessageReceived deviceId payload buf).trace ↔
      (HighlightZone (routedCmd payload buf)).fst = true) := by
  have htrace : (onMessageReceived deviceId payload buf).trace =
      [HEvent.readBytes payload.length,
       HEvent.routeCall (routedCmd payload buf)
         (HighlightZone (routedCmd payload buf)).fst,
       HEvent.publish (eventTopic deviceId)
         (replyBody (cstr (payload ++ buf.drop payload.length))
           (HighlightZone (routedCmd payload buf)).fst),
       HEvent.routeCall (routedCmd payload buf)
         (HighlightZone (routedCmd payload buf)).fst] ++
      (if (HighlightZone (routedCmd payload buf)).fst
       then [HEvent.diagUnknown] else []) := by
    rw [onMessageReceived_accepted _ _ _ h1 h2]
    rfl
  refine ⟨htrace, ?_⟩
  rw [htrace]
  by_cases hv : (HighlightZone (routedCmd payload buf)).fst = true
  · simp [hv]
  · have hv' : (HighlightZone (routedCmd payload buf)).fst = false := by simpa using hv
    simp [hv']

/-- Witness for C10: for the recognized payload `Zone1` the second router call
returns true and the diagnostic is (mistakenly) emitted. -/
theorem claim_C10_witness :
    ((onMessageReceived "d" (bytesOf "Zone1") zeroBuf).trace =
      [HEvent.readBytes (bytesOf "Zone1").length,
       HEvent.routeCall (routedCmd (bytesOf "Zone1") zeroBuf)
         (HighlightZone (routedCmd (bytesOf "Zone1") zeroBuf)).fst,
       HEvent.publish (eventTopic "d")
         (replyBody (cstr (bytesOf "Zone1" ++ zeroBuf.drop (bytesOf "Zone1").length))
           (HighlightZone (routedCmd (bytesOf "Zone1") zeroBuf)).fst),
       HEvent.routeCall (routedCmd (bytesOf "Zone1") zeroBuf)
         (HighlightZone (routedCmd (bytesOf "Zone1") zeroBuf)).fst] ++
      (if (HighlightZone (routedCmd (bytesOf "Zone1") zeroBuf)).fst
       then [HEvent.diagUnknown] else [])) ∧
    (HEvent.diagUnknown ∈ (onMessageReceived "d" (bytesOf "Zone1") zeroBuf).trace ↔
      (HighlightZone (routedCmd (bytesOf "Zone1") zeroBuf)).fst = true) :=
  claim_C10 "d" (bytesOf "Zone1") zeroBuf (by decide) (by decide)

end Mk1010
